import Mathlib

/-!
Verification development for the StopPubbySi call-blocking application.

The repository ships two generations of the native Android layer:

* the current generation (namespaces `ModuleNew`, `ServiceNew`, `InCallUI`)
  built around the SharedPreferences file "call_blocker_prefs", with the
  TextToSpeech screening service `CallBlockerService` and the
  `CallBlockerModule` bridge that defines the `PREF_*` key constants;
* an older generation (namespaces `ModuleOld`, `ServiceOld`) built around
  the SharedPreferences file "StopPubbySiPrefs".

JSON parsing performed by `org.json.JSONArray` is modelled abstractly: a
stored blocked-numbers value is either `some xs` (the string parses to a
JSON array whose elements read back as the strings `xs`) or `none` (the
constructor throws, i.e. the stored value is not valid JSON).  A persisted
JSON-array string is modelled by the constructor `PrefVal.parr`, with
`none` elements standing for JSON null entries.
-/

namespace StopPubBySi

/-- Kotlin `String.startsWith` on character lists: does `l` start with `p`? -/
def startsWithB (l p : List Char) : Bool :=
  match p, l with
  | [], _ => true
  | _ :: _, [] => false
  | b :: bs, a :: as => a == b && startsWithB as bs

/-- Kotlin `String.endsWith` on character lists: does `l` end with `p`? -/
def endsWithB (l p : List Char) : Bool :=
  startsWithB l.reverse p.reverse

/-- Kotlin `String.contains` on character lists: does `l` contain `p` as a
contiguous run? -/
def containsB (l p : List Char) : Bool :=
  match l with
  | [] => p.isEmpty
  | _ :: as => startsWithB l p || containsB as p

/-- Kotlin `String.endsWith` lifted to `String`. -/
def kendsWith (s p : String) : Bool := endsWithB s.data p.data

/-- Kotlin `String.contains` lifted to `String`. -/
def kcontains (s p : String) : Bool := containsB s.data p.data

/-- A value stored in a JSON object entry (a `JSONObject.put` argument). -/
inductive JField where
  | fstr (s : String)
  | fnum (n : Int)
deriving DecidableEq

namespace ServiceNew

/-- `CallBlockerService.normalizePhoneNumber` (current generation):
`number.replace(Regex("[^0-9]"), "").takeLast(9)`. -/
def normalizePhoneNumber (number : String) : String :=
  let digits := number.data.filter Char.isDigit
  String.mk (digits.drop (digits.length - 9))

/-- The per-entry comparison inside `CallBlockerService.isNumberBlocked`:
`normalizedNumber.endsWith(blocked) || blocked.endsWith(normalizedNumber) ||
 normalizedNumber.contains(blocked) || blocked.contains(normalizedNumber)`. -/
def matchesBlockedEntry (normalizedNumber blocked : String) : Bool :=
  kendsWith normalizedNumber blocked || kendsWith blocked normalizedNumber ||
    kcontains normalizedNumber blocked || kcontains blocked normalizedNumber

/-- `CallBlockerService.isNumberBlocked` (current generation).  The argument
`blockedNumbers` is the outcome of parsing the stored `blocked_numbers`
JSON: `none` models a `JSONArray` constructor exception, in which case the
`catch` branch falls through to `return false`. -/
def isNumberBlocked (blockedNumbers : Option (List String)) (phoneNumber : String) : Bool :=
  match blockedNumbers with
  | none => false
  | some stored =>
    let normalizedNumber := normalizePhoneNumber phoneNumber
    stored.any fun b => matchesBlockedEntry normalizedNumber (normalizePhoneNumber b)

/-- `CallBlockerService.addToBlockedHistory` list update: a fresh array
receives the new entry and then the first `minOf(history.length(), 99)`
prior entries. -/
def addToBlockedHistory (entry : α) (history : List α) : List α :=
  entry :: history.take (min history.length 99)

/-- The JSON object built in `addToBlockedHistory`:
`put("phone_number", ...)`, `put("blocked_at", ...)`, `put("reason", ...)`. -/
def mkHistoryEntry (phoneNumber : String) (now : Int) (reason : String) :
    List (String × JField) :=
  [("phone_number", .fstr phoneNumber), ("blocked_at", .fnum now), ("reason", .fstr reason)]

/-- SharedPreferences file opened in `CallBlockerService.onCreate`. -/
def prefsFileName : String := "call_blocker_prefs"

end ServiceNew

namespace ModuleNew

/-- SharedPreferences file opened by the current `CallBlockerModule`. -/
def prefsFileName : String := "call_blocker_prefs"

def PREF_BLOCKED_NUMBERS : String := "blocked_numbers"

def PREF_AUTO_BLOCK_ENABLED : String := "auto_block_enabled"

def PREF_BLOCK_UNKNOWN : String := "block_unknown_numbers"

def PREF_AI_SCREENING_ENABLED : String := "ai_screening_enabled"

def PREF_AI_SCREENING_DELAY : String := "ai_screening_delay"

def PREF_BLOCKED_CALL_HISTORY : String := "blocked_call_history"

def PREF_PENDING_SCREENINGS : String := "pending_screenings"

end ModuleNew

namespace ServiceOld

/-- `PREFS_NAME` of the older `CallBlockerService` variant. -/
def PREFS_NAME : String := "StopPubbySiPrefs"

def BLOCKED_NUMBERS_KEY : String := "blocked_numbers"

def BLOCK_UNKNOWN_KEY : String := "block_unknown_numbers"

def AUTO_BLOCK_KEY : String := "auto_block_spam"

/-- Older `normalizePhoneNumber`: strip everything but digits and `+`, and
rewrite a ten-digit number starting with `0` to the `+33` form. -/
def normalizePhoneNumber (number : String) : String :=
  let kept := number.data.filter fun c => c.isDigit || c == '+'
  if kept.head? == some '0' && kept.length == 10 then
    String.mk ('+' :: '3' :: '3' :: kept.drop 1)
  else
    String.mk kept

/-- Older `shouldBlockNumber`.  `blockedNumbers = none` models a JSON parse
exception inside the `try` block; the `catch` only logs, after which the
function still consults the block-unknown flag. -/
def shouldBlockNumber (blockedNumbers : Option (List String)) (blockUnknown : Bool)
    (phoneNumber : String) : Bool :=
  let normalizedNumber := normalizePhoneNumber phoneNumber
  let matched :=
    match blockedNumbers with
    | none => false
    | some stored =>
      stored.any fun b =>
        let blockedNumber := normalizePhoneNumber b
        normalizedNumber == blockedNumber || kendsWith normalizedNumber blockedNumber ||
          kendsWith blockedNumber normalizedNumber
  if matched then true
  else if blockUnknown then true
  else false

/-- The `while (history.length() > 100) history.remove(0)` loop of
`saveBlockedCall`. -/
def saveBlockedCallTrim (l : List α) : List α :=
  if _h : l.length > 100 then saveBlockedCallTrim l.tail else l
termination_by l.length
decreasing_by
  simp only [List.length_tail]
  omega

/-- Older `saveBlockedCall` list update: append the new entry, then trim
from the front while more than 100 entries remain. -/
def saveBlockedCall (entry : α) (history : List α) : List α :=
  saveBlockedCallTrim (history ++ [entry])

/-- The JSON object built in the older `saveBlockedCall`:
`put("phone_number", ...)` and `put("blocked_at", ...)` only. -/
def mkCallInfo (phoneNumber : String) (now : Int) : List (String × JField) :=
  [("phone_number", .fstr phoneNumber), ("blocked_at", .fnum now)]

end ServiceOld

/-- A value persisted under one SharedPreferences key.  `parr` models a
string produced by `JSONArray.toString()`: a JSON array whose elements are
strings (`some s`) or JSON null (`none`). -/
inductive PrefVal where
  | pb (b : Bool)
  | pi (n : Int)
  | parr (xs : List (Option String))
deriving DecidableEq

/-- The contents of one SharedPreferences file: a finite map from keys to
stored values. -/
def Prefs : Type := String → Option PrefVal

/-- A SharedPreferences file with nothing stored. -/
def emptyPrefs : Prefs := fun _ => none

/-- `SharedPreferences.Editor.putBoolean` followed by `apply`. -/
def putBoolean (prefs : Prefs) (key : String) (value : Bool) : Prefs :=
  fun k => if k = key then some (.pb value) else prefs k

/-- `SharedPreferences.getBoolean` with its default. -/
def getBoolean (prefs : Prefs) (key : String) (defValue : Bool) : Bool :=
  match prefs key with
  | some (.pb b) => b
  | _ => defValue

/-- `SharedPreferences.getInt` with its default. -/
def getInt (prefs : Prefs) (key : String) (defValue : Int) : Int :=
  match prefs key with
  | some (.pi n) => n
  | _ => defValue

/-- `putString(key, jsonArray.toString())` followed by `apply`, at the
parsed level of the serialized array. -/
def putJsonArr (prefs : Prefs) (key : String) (xs : List (Option String)) : Prefs :=
  fun k => if k = key then some (.parr xs) else prefs k

/-- The map returned by `getSettings` in both module generations. -/
structure SettingsMap where
  auto_block_spam : Bool
  block_unknown_numbers : Bool
  ai_screening_enabled : Bool
  ai_screening_delay : Int
deriving DecidableEq

namespace ModuleNew

/-- Current `CallBlockerModule.updateBlockedNumbers`: copy the non-null
strings of the argument into `numberList`, serialize, and store under
`PREF_BLOCKED_NUMBERS`.  The `ReadableArray` argument is modelled as a
list of nullable strings. -/
def updateBlockedNumbers (prefs : Prefs) (numbers : List (Option String)) : Prefs :=
  let numberList := numbers.filterMap id
  putJsonArr prefs PREF_BLOCKED_NUMBERS (numberList.map some)

/-- Current `CallBlockerModule.setAutoBlockEnabled`. -/
def setAutoBlockEnabled (prefs : Prefs) (enabled : Bool) : Prefs :=
  putBoolean prefs PREF_AUTO_BLOCK_ENABLED enabled

/-- Current `CallBlockerModule.getSettings`. -/
def getSettings (prefs : Prefs) : SettingsMap where
  auto_block_spam := getBoolean prefs PREF_AUTO_BLOCK_ENABLED true
  block_unknown_numbers := getBoolean prefs PREF_BLOCK_UNKNOWN false
  ai_screening_enabled := getBoolean prefs PREF_AI_SCREENING_ENABLED false
  ai_screening_delay := getInt prefs PREF_AI_SCREENING_DELAY 3

end ModuleNew

namespace ModuleOld

/-- `PREFS_NAME` of the older `CallBlockerModule` variant. -/
def PREFS_NAME : String := "StopPubbySiPrefs"

def BLOCKED_NUMBERS_KEY : String := "blocked_numbers"

def BLOCK_UNKNOWN_KEY : String := "block_unknown_numbers"

def AUTO_BLOCK_KEY : String := "auto_block_spam"

def AI_SCREENING_KEY : String := "ai_screening_enabled"

def AI_SCREENING_DELAY_KEY : String := "ai_screening_delay"

/-- Older `CallBlockerModule.updateBlockedNumbers`: every
`numbers.getString(i)` is put into the JSON array directly, so null
elements are serialized as JSON null. -/
def updateBlockedNumbers (prefs : Prefs) (numbers : List (Option String)) : Prefs :=
  putJsonArr prefs BLOCKED_NUMBERS_KEY numbers

/-- Older `CallBlockerModule.setAutoBlockEnabled`. -/
def setAutoBlockEnabled (prefs : Prefs) (enabled : Bool) : Prefs :=
  putBoolean prefs AUTO_BLOCK_KEY enabled

/-- Older `CallBlockerModule.getSettings` (the map also carries the AI
screening fields in the variant that has them). -/
def getSettings (prefs : Prefs) : SettingsMap where
  auto_block_spam := getBoolean prefs AUTO_BLOCK_KEY true
  block_unknown_numbers := getBoolean prefs BLOCK_UNKNOWN_KEY false
  ai_screening_enabled := getBoolean prefs AI_SCREENING_KEY false
  ai_screening_delay := getInt prefs AI_SCREENING_DELAY_KEY 3

end ModuleOld

namespace InCallUI

/-- SharedPreferences file opened in `InCallActivity.onCreate`. -/
def prefsFileName : String := "call_blocker_prefs"

end InCallUI

/-- The (file, key) pairs read or written by the current
`CallBlockerModule`. -/
def ModuleNew.storageAccesses : List (String × String) :=
  [(prefsFileName, PREF_BLOCKED_NUMBERS),
   (prefsFileName, PREF_AUTO_BLOCK_ENABLED),
   (prefsFileName, PREF_BLOCK_UNKNOWN),
   (prefsFileName, PREF_AI_SCREENING_ENABLED),
   (prefsFileName, PREF_AI_SCREENING_DELAY),
   (prefsFileName, PREF_PENDING_SCREENINGS),
   (prefsFileName, PREF_BLOCKED_CALL_HISTORY)]

/-- The (file, key) pairs read or written by the current
`CallBlockerService` (all through `CallBlockerModule.PREF_*` constants). -/
def ServiceNew.storageAccesses : List (String × String) :=
  [(prefsFileName, ModuleNew.PREF_AUTO_BLOCK_ENABLED),
   (prefsFileName, ModuleNew.PREF_BLOCK_UNKNOWN),
   (prefsFileName, ModuleNew.PREF_AI_SCREENING_ENABLED),
   (prefsFileName, ModuleNew.PREF_AI_SCREENING_DELAY),
   (prefsFileName, ModuleNew.PREF_BLOCKED_NUMBERS),
   (prefsFileName, ModuleNew.PREF_BLOCKED_CALL_HISTORY),
   (prefsFileName, ModuleNew.PREF_PENDING_SCREENINGS)]

/-- The (file, key) pairs read by `InCallActivity`: the AI-screening flag
in `onCreate`, the delay in `scheduleAIScreening`, and the blocked list in
its own `isNumberBlocked`. -/
def InCallUI.storageAccesses : List (String × String) :=
  [(prefsFileName, ModuleNew.PREF_AI_SCREENING_ENABLED),
   (prefsFileName, ModuleNew.PREF_AI_SCREENING_DELAY),
   (prefsFileName, ModuleNew.PREF_BLOCKED_NUMBERS)]

/-- The (file, key) pairs read or written by the older
`CallBlockerModule`. -/
def ModuleOld.storageAccesses : List (String × String) :=
  [(PREFS_NAME, BLOCKED_NUMBERS_KEY),
   (PREFS_NAME, AUTO_BLOCK_KEY),
   (PREFS_NAME, BLOCK_UNKNOWN_KEY),
   (PREFS_NAME, AI_SCREENING_KEY),
   (PREFS_NAME, AI_SCREENING_DELAY_KEY),
   (PREFS_NAME, "pending_screenings"),
   (PREFS_NAME, "blocked_history")]

/-- The (file, key) pairs read or written by the older
`CallBlockerService`. -/
def ServiceOld.storageAccesses : List (String × String) :=
  [(PREFS_NAME, AUTO_BLOCK_KEY),
   (PREFS_NAME, BLOCKED_NUMBERS_KEY),
   (PREFS_NAME, BLOCK_UNKNOWN_KEY),
   (PREFS_NAME, "blocked_history")]

namespace ServiceOldAI

/-- `PREFS_NAME` of the MediaRecorder/AI older `CallBlockerService`
iteration (part_004). -/
def PREFS_NAME : String := "StopPubbySiPrefs"

/-- The (file, key) pairs read or written by the part_004 service:
settings reads in `onScreenCall`, the pending-screenings read/write in
`savePendingScreening`, the blocked list in `shouldBlockNumber`, and the
history read/write in `saveBlockedCall`.  Its `BLOCK_UNKNOWN_KEY`
constant is declared but never accessed. -/
def storageAccesses : List (String × String) :=
  [(PREFS_NAME, "auto_block_spam"),
   (PREFS_NAME, "ai_screening_enabled"),
   (PREFS_NAME, "ai_screening_delay"),
   (PREFS_NAME, "pending_screenings"),
   (PREFS_NAME, "blocked_numbers"),
   (PREFS_NAME, "blocked_history")]

end ServiceOldAI

/-! ## The JavaScript `CallBlocker` wrapper module

Each wrapper is `async`, first tests whether the platform differs from android, then
runs the native call inside `try`/`catch` and returns a fixed fallback in
the `catch`.  The native outcome is modelled as `Option JsVal`: `some v`
is a resolved value, `none` a throw or rejection. -/

/-- A JavaScript value crossing the bridge.  Arrays returned by this
module carry maps (history items, pending screenings), modelled as
association lists of fields. -/
inductive JsVal where
  | jbool (b : Bool)
  | jnum (n : Int)
  | jnull
  | jarr (xs : List (List (String × JField)))
deriving DecidableEq

/-- The outcome of the promise a wrapper returns. -/
inductive PromiseOutcome where
  | resolved (v : JsVal)
  | rejected
deriving DecidableEq

namespace CallBlocker

def isCallScreeningServiceEnabled (os : String) (native : Option JsVal) : PromiseOutcome :=
  if os ≠ "android" then .resolved (.jbool false)
  else
    match native with
    | some v => .resolved v
    | none => .resolved (.jbool false)

def requestCallScreeningRole (os : String) (native : Option JsVal) : PromiseOutcome :=
  if os ≠ "android" then .resolved (.jbool false)
  else
    match native with
    | some v => .resolved v
    | none => .resolved (.jbool false)

def updateBlockedNumbers (os : String) (native : Option JsVal) : PromiseOutcome :=
  if os ≠ "android" then .resolved (.jbool false)
  else
    match native with
    | some v => .resolved v
    | none => .resolved (.jbool false)

def setAutoBlockEnabled (os : String) (native : Option JsVal) : PromiseOutcome :=
  if os ≠ "android" then .resolved (.jbool false)
  else
    match native with
    | some v => .resolved v
    | none => .resolved (.jbool false)

def setBlockUnknownNumbers (os : String) (native : Option JsVal) : PromiseOutcome :=
  if os ≠ "android" then .resolved (.jbool false)
  else
    match native with
    | some v => .resolved v
    | none => .resolved (.jbool false)

def setAIScreeningEnabled (os : String) (native : Option JsVal) : PromiseOutcome :=
  if os ≠ "android" then .resolved (.jbool false)
  else
    match native with
    | some v => .resolved v
    | none => .resolved (.jbool false)

def isAIScreeningEnabled (os : String) (native : Option JsVal) : PromiseOutcome :=
  if os ≠ "android" then .resolved (.jbool false)
  else
    match native with
    | some v => .resolved v
    | none => .resolved (.jbool false)

def setAIScreeningDelay (os : String) (native : Option JsVal) : PromiseOutcome :=
  if os ≠ "android" then .resolved (.jbool false)
  else
    match native with
    | some v => .resolved v
    | none => .resolved (.jbool false)

def getAIScreeningDelay (os : String) (native : Option JsVal) : PromiseOutcome :=
  if os ≠ "android" then .resolved (.jnum 3)
  else
    match native with
    | some v => .resolved v
    | none => .resolved (.jnum 3)

def getPendingScreenings (os : String) (native : Option JsVal) : PromiseOutcome :=
  if os ≠ "android" then .resolved (.jarr [])
  else
    match native with
    | some v => .resolved v
    | none => .resolved (.jarr [])

def clearPendingScreenings (os : String) (native : Option JsVal) : PromiseOutcome :=
  if os ≠ "android" then .resolved (.jbool false)
  else
    match native with
    | some v => .resolved v
    | none => .resolved (.jbool false)

def getBlockedCallHistory (os : String) (native : Option JsVal) : PromiseOutcome :=
  if os ≠ "android" then .resolved (.jarr [])
  else
    match native with
    | some v => .resolved v
    | none => .resolved (.jarr [])

def clearBlockedCallHistory (os : String) (native : Option JsVal) : PromiseOutcome :=
  if os ≠ "android" then .resolved (.jbool false)
  else
    match native with
    | some v => .resolved v
    | none => .resolved (.jbool false)

def getSettings (os : String) (native : Option JsVal) : PromiseOutcome :=
  if os ≠ "android" then .resolved .jnull
  else
    match native with
    | some v => .resolved v
    | none => .resolved .jnull

/-- The synchronous `isSupported`: the platform equals android. -/
def isSupported (os : String) : Bool := decide (os = "android")

end CallBlocker

/-- The promise-returning operations of the JS `CallBlocker` module
(the full variant; the smaller variant exposes a subset with identical
wrapper bodies). -/
inductive Op where
  | isCallScreeningServiceEnabled
  | requestCallScreeningRole
  | updateBlockedNumbers
  | setAutoBlockEnabled
  | setBlockUnknownNumbers
  | setAIScreeningEnabled
  | isAIScreeningEnabled
  | setAIScreeningDelay
  | getAIScreeningDelay
  | getPendingScreenings
  | clearPendingScreenings
  | getBlockedCallHistory
  | clearBlockedCallHistory
  | getSettings
deriving DecidableEq, Fintype

/-- Dispatch an operation name to its wrapper. -/
def interp : Op → String → Option JsVal → PromiseOutcome
  | .isCallScreeningServiceEnabled => CallBlocker.isCallScreeningServiceEnabled
  | .requestCallScreeningRole => CallBlocker.requestCallScreeningRole
  | .updateBlockedNumbers => CallBlocker.updateBlockedNumbers
  | .setAutoBlockEnabled => CallBlocker.setAutoBlockEnabled
  | .setBlockUnknownNumbers => CallBlocker.setBlockUnknownNumbers
  | .setAIScreeningEnabled => CallBlocker.setAIScreeningEnabled
  | .isAIScreeningEnabled => CallBlocker.isAIScreeningEnabled
  | .setAIScreeningDelay => CallBlocker.setAIScreeningDelay
  | .getAIScreeningDelay => CallBlocker.getAIScreeningDelay
  | .getPendingScreenings => CallBlocker.getPendingScreenings
  | .clearPendingScreenings => CallBlocker.clearPendingScreenings
  | .getBlockedCallHistory => CallBlocker.getBlockedCallHistory
  | .clearBlockedCallHistory => CallBlocker.clearBlockedCallHistory
  | .getSettings => CallBlocker.getSettings

/-- The fallback literal each wrapper returns in its `catch` branch and in
its non-Android early return (they coincide in the source). -/
def defaultValue : Op → JsVal
  | .isCallScreeningServiceEnabled => .jbool false
  | .requestCallScreeningRole => .jbool false
  | .updateBlockedNumbers => .jbool false
  | .setAutoBlockEnabled => .jbool false
  | .setBlockUnknownNumbers => .jbool false
  | .setAIScreeningEnabled => .jbool false
  | .isAIScreeningEnabled => .jbool false
  | .setAIScreeningDelay => .jbool false
  | .getAIScreeningDelay => .jnum 3
  | .getPendingScreenings => .jarr []
  | .clearPendingScreenings => .jbool false
  | .getBlockedCallHistory => .jarr []
  | .clearBlockedCallHistory => .jbool false
  | .getSettings => .jnull

/-! ## Helper lemmas -/

theorem startsWithB_self (l : List Char) : startsWithB l l = true := by
  induction l with
  | nil => rfl
  | cons a as ih => simp [startsWithB, ih]

theorem startsWithB_nil (l : List Char) : startsWithB l [] = true := by
  simp [startsWithB]

theorem kendsWith_self (s : String) : kendsWith s s = true := by
  simp [kendsWith, endsWithB, startsWithB_self]

theorem kendsWith_empty (s : String) : kendsWith s "" = true := by
  simp [kendsWith, endsWithB, startsWithB_nil]

theorem matchesBlockedEntry_self (s : String) :
    ServiceNew.matchesBlockedEntry s s = true := by
  simp [ServiceNew.matchesBlockedEntry, kendsWith_self]

theorem saveBlockedCallTrim_length (l : List α) :
    (ServiceOld.saveBlockedCallTrim l).length = min l.length 100 := by
  rw [ServiceOld.saveBlockedCallTrim]
  split
  · next h =>
    rw [saveBlockedCallTrim_length l.tail, List.length_tail]
    omega
  · next h => omega
termination_by l.length
decreasing_by
  simp only [List.length_tail]
  omega

/-! ## Claims -/

/-- C1: if the digit characters of an incoming phone number end in the
same 9 digits as the digit characters of some entry of the stored blocked
list (both sides normalized by stripping non-digits and keeping the last
9 digits), then `isNumberBlocked` classifies the call as blocked. -/
theorem c1_blocked_when_same_last9 (stored : List String) (phoneNumber entry : String)
    (hmem : entry ∈ stored)
    (heq : ServiceNew.normalizePhoneNumber phoneNumber = ServiceNew.normalizePhoneNumber entry)
    (hlen : (ServiceNew.normalizePhoneNumber phoneNumber).length = 9) :
    ServiceNew.isNumberBlocked (some stored) phoneNumber = true := by
  unfold ServiceNew.isNumberBlocked
  simp only [List.any_eq_true]
  refine ⟨entry, hmem, ?_⟩
  rw [← heq]
  exact matchesBlockedEntry_self _

/-- Witness for C1 at a concrete store and caller. -/
theorem c1_witness :
    ServiceNew.normalizePhoneNumber "+33 6 12 34 56 78"
      = ServiceNew.normalizePhoneNumber "0612345678" ∧
    (ServiceNew.normalizePhoneNumber "+33 6 12 34 56 78").length = 9 ∧
    ServiceNew.isNumberBlocked (some ["0612345678"]) "+33 6 12 34 56 78" = true :=
  ⟨by decide, by decide,
    c1_blocked_when_same_last9 ["0612345678"] "+33 6 12 34 56 78" "0612345678"
      (by decide) (by decide) (by decide)⟩

/-- C2: after the screening service inserts a new blocked-call entry, the
stored history holds at most 100 entries: the current
`addToBlockedHistory` keeps the new entry plus at most 99 prior ones, and
the older `saveBlockedCall` trims the appended history to at most 100. -/
theorem c2_history_capped (α : Type) (entry : α) (history : List α) :
    (ServiceNew.addToBlockedHistory entry history).length = 1 + min history.length 99 ∧
    (ServiceNew.addToBlockedHistory entry history).length ≤ 100 ∧
    (ServiceOld.saveBlockedCall entry history).length = min (history.length + 1) 100 ∧
    (ServiceOld.saveBlockedCall entry history).length ≤ 100 := by
  have h1 : (ServiceNew.addToBlockedHistory entry history).length = 1 + min history.length 99 := by
    simp only [ServiceNew.addToBlockedHistory, List.length_cons, List.length_take]
    omega
  have h2 : (ServiceOld.saveBlockedCall entry history).length = min (history.length + 1) 100 := by
    simp only [ServiceOld.saveBlockedCall, saveBlockedCallTrim_length, List.length_append,
      List.length_cons, List.length_nil]
  exact ⟨h1, by omega, h2, by omega⟩

/-- C7 counterexample: the JSON object recorded by the older
`saveBlockedCall` carries no "reason" field. -/
theorem c7_counterexample :
    ¬ ("reason" ∈ (ServiceOld.mkCallInfo "0612345678" 1700000000000).map Prod.fst) := by
  decide

/-- C7 (amended): entries recorded by the current `addToBlockedHistory`
carry phone_number, blocked_at and reason, and the new entry is the head
of the updated history; entries recorded by the older `saveBlockedCall`
carry phone_number and blocked_at but no reason field. -/
theorem c7_history_entry_fields (p : String) (t : Int) (r : String)
    (history : List (List (String × JField))) :
    (ServiceNew.mkHistoryEntry p t r).map Prod.fst = ["phone_number", "blocked_at", "reason"] ∧
    ServiceNew.mkHistoryEntry p t r ∈
      ServiceNew.addToBlockedHistory (ServiceNew.mkHistoryEntry p t r) history ∧
    (ServiceOld.mkCallInfo p t).map Prod.fst = ["phone_number", "blocked_at"] :=
  ⟨rfl, List.mem_cons_self _ _, rfl⟩

/-- C8: a blocked-list entry with no digit characters normalizes to the
empty string, which is a suffix of every normalized number, so every
incoming call is classified as blocked. -/
theorem c8_empty_entry_blocks_all (stored : List String) (entry phoneNumber : String)
    (hmem : entry ∈ stored)
    (hempty : ServiceNew.normalizePhoneNumber entry = "") :
    ServiceNew.isNumberBlocked (some stored) phoneNumber = true := by
  unfold ServiceNew.isNumberBlocked
  simp only [List.any_eq_true]
  refine ⟨entry, hmem, ?_⟩
  rw [hempty]
  simp [ServiceNew.matchesBlockedEntry, kendsWith_empty]

/-- Witness for C8: the digit-free entry "abc" blocks an arbitrary
caller. -/
theorem c8_witness :
    ServiceNew.normalizePhoneNumber "abc" = "" ∧
    ServiceNew.isNumberBlocked (some ["abc"]) "0612345678" = true :=
  ⟨by decide, c8_empty_entry_blocks_all ["abc"] "abc" "0612345678" (by decide) (by decide)⟩

/-- C9 counterexample: with an unparseable blocked-numbers value and the
block-unknown flag set, the older `shouldBlockNumber` returns true, not
false. -/
theorem c9_counterexample :
    ¬ (ServiceOld.shouldBlockNumber none true "0612345678" = false) := by
  decide

/-- C9 (amended): on an unparseable blocked-numbers value neither check
throws; `isNumberBlocked` returns false, while the older
`shouldBlockNumber` falls through to the block-unknown flag, so it returns
false exactly when block_unknown_numbers is disabled. -/
theorem c9_corrupt_store_total :
    (∀ phoneNumber, ServiceNew.isNumberBlocked none phoneNumber = false) ∧
    (∀ (blockUnknown : Bool) (phoneNumber : String),
      ServiceOld.shouldBlockNumber none blockUnknown phoneNumber = blockUnknown) := by
  refine ⟨fun _ => rfl, fun blockUnknown p => ?_⟩
  cases blockUnknown <;> rfl

/-- C3 counterexample: when the native call fails, `getAIScreeningDelay`
resolves the number 3, which is none of false, null and the empty array. -/
theorem c3_counterexample :
    interp .getAIScreeningDelay "android" none = .resolved (.jnum 3) ∧
    JsVal.jnum 3 ≠ .jbool false ∧ JsVal.jnum 3 ≠ .jnull ∧ JsVal.jnum 3 ≠ .jarr [] := by
  decide

/-- C3 (amended): on a failed native call every wrapper resolves its fixed
fallback and no wrapper ever rejects; the fallback is false, null or the
empty array for every operation except `getAIScreeningDelay`, whose
fallback is the number 3. -/
theorem c3_error_resolves_default :
    (∀ op : Op, interp op "android" none = .resolved (defaultValue op)) ∧
    (∀ op : Op, op = .getAIScreeningDelay ∨ defaultValue op = .jbool false ∨
      defaultValue op = .jnull ∨ defaultValue op = .jarr []) ∧
    defaultValue .getAIScreeningDelay = .jnum 3 ∧
    (∀ (op : Op) (os : String) (native : Option JsVal), interp op os native ≠ .rejected) := by
  refine ⟨by decide, by decide, by decide, fun op os native => ?_⟩
  cases op <;> cases native <;>
    simp [interp, CallBlocker.isCallScreeningServiceEnabled,
      CallBlocker.requestCallScreeningRole, CallBlocker.updateBlockedNumbers,
      CallBlocker.setAutoBlockEnabled, CallBlocker.setBlockUnknownNumbers,
      CallBlocker.setAIScreeningEnabled, CallBlocker.isAIScreeningEnabled,
      CallBlocker.setAIScreeningDelay, CallBlocker.getAIScreeningDelay,
      CallBlocker.getPendingScreenings, CallBlocker.clearPendingScreenings,
      CallBlocker.getBlockedCallHistory, CallBlocker.clearBlockedCallHistory,
      CallBlocker.getSettings] <;>
    split <;> simp

/-- Witness for C3 at a concrete operation and platform. -/
theorem c3_witness : interp .getSettings "ios" none ≠ .rejected :=
  c3_error_resolves_default.2.2.2 .getSettings "ios" none

/-- C4 counterexample: on a non-Android platform `getAIScreeningDelay`
yields the number 3, which is none of false, the empty array and null. -/
theorem c4_counterexample :
    interp .getAIScreeningDelay "ios" none = .resolved (.jnum 3) ∧
    JsVal.jnum 3 ≠ .jbool false ∧ JsVal.jnum 3 ≠ .jarr [] ∧ JsVal.jnum 3 ≠ .jnull := by
  decide

/-- C4 (amended): on a non-Android platform every wrapper resolves its
fixed fallback regardless of the native outcome (the native module is
never consulted), `isSupported` reports false, and the fallback is false,
the empty array or null for every operation except `getAIScreeningDelay`,
which yields its numeric default 3. -/
theorem c4_non_android_defaults (os : String) (hos : os ≠ "android") :
    (∀ (op : Op) (native : Option JsVal), interp op os native = .resolved (defaultValue op)) ∧
    CallBlocker.isSupported os = false ∧
    (∀ op : Op, op = .getAIScreeningDelay ∨ defaultValue op = .jbool false ∨
      defaultValue op = .jnull ∨ defaultValue op = .jarr []) := by
  refine ⟨fun op native => ?_, ?_, by decide⟩
  · cases op <;>
      simp [interp, defaultValue, CallBlocker.isCallScreeningServiceEnabled,
        CallBlocker.requestCallScreeningRole, CallBlocker.updateBlockedNumbers,
        CallBlocker.setAutoBlockEnabled, CallBlocker.setBlockUnknownNumbers,
        CallBlocker.setAIScreeningEnabled, CallBlocker.isAIScreeningEnabled,
        CallBlocker.setAIScreeningDelay, CallBlocker.getAIScreeningDelay,
        CallBlocker.getPendingScreenings, CallBlocker.clearPendingScreenings,
        CallBlocker.getBlockedCallHistory, CallBlocker.clearBlockedCallHistory,
        CallBlocker.getSettings, hos]
  · simp [CallBlocker.isSupported, hos]

/-- Witness for C4 on the iOS platform. -/
theorem c4_witness : interp .getSettings "ios" none = .resolved .jnull := by
  simpa [defaultValue] using (c4_non_android_defaults "ios" (by decide)).1 .getSettings none

/-- C5: within each generation of the native layer, every storage access
of the bridge module, the screening service and the in-call activity goes
to one and the same SharedPreferences file, and that file carries the
JSON-array keys (blocked numbers, blocked-call history, pending
screenings) alongside the scalar settings keys. -/
theorem c5_single_prefs_file :
    ((ModuleNew.storageAccesses ++ ServiceNew.storageAccesses ++
        InCallUI.storageAccesses).all fun a => a.1 == "call_blocker_prefs") = true ∧
    ((ModuleOld.storageAccesses ++ ServiceOld.storageAccesses ++
        ServiceOldAI.storageAccesses).all fun a => a.1 == "StopPubbySiPrefs") = true ∧
    ServiceNew.prefsFileName = ModuleNew.prefsFileName ∧
    InCallUI.prefsFileName = ModuleNew.prefsFileName ∧
    ServiceOld.PREFS_NAME = ModuleOld.PREFS_NAME ∧
    ServiceOldAI.PREFS_NAME = ModuleOld.PREFS_NAME ∧
    (["blocked_numbers", "blocked_call_history", "pending_screenings"].all
      fun k => (ModuleNew.storageAccesses.contains (ModuleNew.prefsFileName, k)) &&
        (ServiceNew.storageAccesses.contains (ModuleNew.prefsFileName, k))) = true ∧
    (["blocked_numbers", "blocked_history"].all
      fun k => ModuleOld.storageAccesses.contains (ModuleOld.PREFS_NAME, k) &&
        ServiceOld.storageAccesses.contains (ModuleOld.PREFS_NAME, k)) = true ∧
    (["blocked_numbers", "blocked_history", "pending_screenings"].all
      fun k => ServiceOldAI.storageAccesses.contains (ModuleOld.PREFS_NAME, k)) = true := by
  decide

/-- C6: after `setAutoBlockEnabled b`, `getSettings` reports
auto_block_spam equal to `b`, in both module generations. -/
theorem c6_auto_block_roundtrip (prefs : Prefs) (b : Bool) :
    (ModuleOld.getSettings (ModuleOld.setAutoBlockEnabled prefs b)).auto_block_spam = b ∧
    (ModuleNew.getSettings (ModuleNew.setAutoBlockEnabled prefs b)).auto_block_spam = b :=
  ⟨rfl, rfl⟩

/-- C10 counterexample: the older `updateBlockedNumbers` does not drop a
null element; it is stored as a JSON null instead. -/
theorem c10_counterexample :
    ¬ (ModuleOld.updateBlockedNumbers emptyPrefs [some "0612345678", none] "blocked_numbers"
        = some (.parr (([some "0612345678", none].filterMap id).map some))) := by
  decide

/-- C10 (amended): both variants of `updateBlockedNumbers` replace the
stored blocked list wholesale and touch no other key; the current variant
stores exactly the argument with null elements dropped, while the older
variant stores the argument verbatim, null elements included. -/
theorem c10_update_replaces_wholesale (prefs : Prefs) (numbers : List (Option String)) :
    ModuleNew.updateBlockedNumbers prefs numbers ModuleNew.PREF_BLOCKED_NUMBERS
      = some (.parr ((numbers.filterMap id).map some)) ∧
    ModuleOld.updateBlockedNumbers prefs numbers ModuleOld.BLOCKED_NUMBERS_KEY
      = some (.parr numbers) ∧
    (∀ k, k ≠ "blocked_numbers" →
      ModuleNew.updateBlockedNumbers prefs numbers k = prefs k ∧
      ModuleOld.updateBlockedNumbers prefs numbers k = prefs k) := by
  refine ⟨rfl, rfl, fun k hk => ?_⟩
  constructor <;>
    simp [ModuleNew.updateBlockedNumbers, ModuleOld.updateBlockedNumbers, putJsonArr,
      ModuleNew.PREF_BLOCKED_NUMBERS, ModuleOld.BLOCKED_NUMBERS_KEY, hk]

/-- Witness for C10: a concrete update stores the null-free list and
leaves an unrelated key untouched. -/
theorem c10_witness :
    ModuleNew.updateBlockedNumbers emptyPrefs [some "0612345678", none] "blocked_numbers"
      = some (.parr [some "0612345678"]) ∧
    ModuleNew.updateBlockedNumbers emptyPrefs [some "0612345678", none] "auto_block_spam"
      = none := by
  have h := c10_update_replaces_wholesale emptyPrefs [some "0612345678", none]
  exact ⟨by simpa using h.1, by simpa [emptyPrefs] using (h.2.2 "auto_block_spam" (by decide)).1⟩

end StopPubBySi
